import Mathlib

/-
Verification of the 3P xlsx report parser (adsorption_file_parser/trp_excel.py).

The Python module is embedded shallowly:

* cell values become the inductive type Value (None, str, numbers as
  rationals, bool);
* Python dicts become insertion-ordered association lists with
  overwrite-in-place semantics (dictSet);
* fallible operations return Except PyErr, where each PyErr constructor
  records the Python exception class the interpreter would raise
  (KeyError from a missing worksheet, AttributeError from .lower() or
  .group() on an unsuitable object, IndexError from row[i], TypeError
  from map() without iterables or str.join of a non-string, and
  StopIteration from next() on an exhausted iterator);
* the external collaborators that live outside this module
  (date parsing, excel string normalisation, unit-string parsing) are
  parameters gathered in the structure Collab, and the helpers of
  common_utils that the module calls are modelled from the spec where
  their code is not part of the sources under study.
-/

set_option maxRecDepth 10000

deriving instance DecidableEq for Except

namespace TrpExcel

/-- Scalar cell values as handed over by the spreadsheet reader: Python
None, str, int/float (modelled together as rationals) and bool. -/
inductive Value where
  | none : Value
  | str (s : String) : Value
  | num (q : Rat) : Value
  | bool (b : Bool) : Value
deriving DecidableEq, Repr

/-- Python truthiness of a cell value (None, empty string, zero and
False are falsy). -/
def Value.truthy : Value → Bool
  | Value.none => false
  | Value.str s => s != ""
  | Value.num q => q != 0
  | Value.bool b => b

/-- Python str.lower() realised on the character list (the labels and
headers involved are plain text, for which per-character lowering
matches Python). -/
def pyLower (s : String) : String :=
  String.mk (s.toList.map Char.toLower)

/-- Python label.replace(' ', '_') as used to slugify fallback keys
(line 91): every space character becomes an underscore. -/
def pySlug (s : String) : String :=
  String.mk (s.toList.map (fun c => if c = ' ' then '_' else c))

/-- Python str.strip(): drop whitespace from both ends. -/
def pyTrim (s : String) : String :=
  String.mk (((s.toList.dropWhile Char.isWhitespace).reverse.dropWhile
    Char.isWhitespace).reverse)

/-- Python attribute access value.lower(): defined on strings only; on
any other value the interpreter raises AttributeError, modelled as
Option.none here. -/
def Value.lowerStr : Value → Option String
  | Value.str s => Option.some (pyLower s)
  | _ => Option.none

/-- Python exception classes that the embedded code can raise. -/
inductive PyErr where
  | keyError (name : String) : PyErr
  | attributeError : PyErr
  | indexError : PyErr
  | typeError : PyErr
  | stopIteration : PyErr
deriving DecidableEq, Repr

/-- Python dict write d[k] = v on an insertion-ordered association
list: overwrite the value in place if the key is present, else append
the new binding at the end. -/
def dictSet {β : Type} (m : List (String × β)) (k : String) (v : β) :
    List (String × β) :=
  if m.any (fun p => p.1 == k) then
    m.map (fun p => if p.1 == k then (k, v) else p)
  else m ++ [(k, v)]

/-- Python dict read d.get(k): the value of the unique binding of k. -/
def dictGet? {β : Type} (m : List (String × β)) (k : String) : Option β :=
  (m.find? (fun p => p.1 == k)).map (fun p => p.2)

/-- Python membership test k in d. -/
def dictMem {β : Type} (m : List (String × β)) (k : String) : Bool :=
  m.any (fun p => p.1 == k)

/-- Python dict.update(other): fold the bindings of other into m. -/
def dictSets {β : Type} (m : List (String × β)) (ps : List (String × β)) :
    List (String × β) :=
  ps.foldl (fun acc p => dictSet acc p.1 p.2) m

/-- One entry of the metadata vocabulary _META_DICT: the candidate label
substrings and the declared type tag. -/
structure MetaEntry where
  text : List String
  type : String
deriving DecidableEq, Repr

/-- Metadata mapping: string key to scalar cell value. -/
abbrev Meta := List (String × Value)

/-- Data mapping: column key to the ordered sequence of column values. -/
abbrev Data := List (String × List Value)

/-- Metadata vocabulary: ordered canonical key / entry pairs. -/
abbrev Vocab := List (String × MetaEntry)

/-- A workbook: named sheets, each a list of rows of cell values. -/
abbrev Workbook := List (String × List (List Value))

/-- The metadata vocabulary _META_DICT of trp_excel.py (lines 10 to 27). -/
def _META_DICT : Vocab :=
  [ ("material", { text := ["charge name"], type := "string" }),
    ("adsorbate", { text := ["adsorbate"], type := "string" }),
    ("date", { text := ["started time"], type := "date" }),
    ("material_mass", { text := ["sample weight"], type := "numeric" }) ]

/-- The data-column vocabulary _DATA_DICT of trp_excel.py (lines 29
to 48): canonical column key and candidate header beginnings. -/
def _DATA_DICT : List (String × List String) :=
  [ ("measurement", ["id"]),
    ("pressure", ["p ("]),
    ("pressure_saturation", ["p0 ("]),
    ("pressure_relative", ["p/p0"]),
    ("time_point", ["time"]),
    ("loading", ["v ("]) ]

/-- Python substring containment cand in text, on the character lists. -/
def strContains (text cand : String) : Bool :=
  (List.range (text.toList.length + 1)).any
    (fun i => cand.toList.isPrefixOf (text.toList.drop i))

/-- Modelled from the spec: common_utils.search_key_in_def_dict, the Key
Matcher in contains mode.  Returns the first vocabulary binding whose
candidate substring occurs in the lower-cased label, and Option.none
(the StopIteration of the Python generator) when no key matches. -/
def search_key_in_def_dict (text : String) (d : Vocab) :
    Option (String × MetaEntry) :=
  d.find? (fun p => p.2.text.any (fun cand => strContains text cand))

/-- Modelled from the spec: common_utils.search_key_starts_def_dict, the
Key Matcher in prefix mode.  Returns the first canonical column key one
of whose candidates is a prefix of the lower-cased header text. -/
def search_key_starts_def_dict (text : String)
    (d : List (String × List String)) : Option String :=
  (d.find? (fun p => p.2.any (fun cand => cand.toList.isPrefixOf text.toList))).map
    (fun p => p.1)

/-- Modelled from the spec: common_utils.RE_BETWEEN_BRACKETS.search —
the text between the first opening round bracket and the following
closing one; Option.none when there is no such bracketed substring. -/
def betweenBrackets? (s : String) : Option String :=
  match s.toList.dropWhile (fun c => c != '(') with
  | [] => Option.none
  | _ :: rest =>
    if (rest.dropWhile (fun c => c != ')')).isEmpty then Option.none
    else Option.some (String.mk (rest.takeWhile (fun c => c != ')')))

/-- The external collaborators consumed by trp_excel.py whose internals
are out of scope: the date parser and string normaliser of common_utils
and the two unit-string parsers of unit_parsing.  Modelled from the
spec: the date parser either returns a normalised value or rejects the
input (Option.none), in which case the field is recorded as null; the
string normaliser and the unit parsers are black-box total functions. -/
structure Collab where
  handle_string_date : Value → Option Value
  handle_excel_string : Value → Value
  parse_loading_string : String → List (String × Value)
  parse_pressure_string : String → List (String × Value)

/-- A concrete collaborator instance used to evaluate the model on
closed inputs: the date parser recognises exactly one timestamp string,
the string normaliser is the identity, and the unit parsers return a
one-field mapping recording the trimmed token they were given. -/
def defaultCollab : Collab where
  handle_string_date v :=
    match v with
    | Value.str s =>
      if s = "2020-01-01 10:00" then Option.some (Value.str "2020-01-01T10:00:00")
      else Option.none
    | _ => Option.none
  handle_excel_string v := v
  parse_loading_string u := [("loading_basis", Value.str "molar"), ("loading_unit", Value.str u)]
  parse_pressure_string u := [("pressure_mode", Value.str "absolute"), ("pressure_unit", Value.str u)]

/-- Python row[i] on a tuple of cells: IndexError when out of range. -/
def pyGet (row : List Value) (i : Nat) : Except PyErr Value :=
  match row.get? i with
  | Option.some v => Except.ok v
  | Option.none => Except.error PyErr.indexError

/-- One iteration of the Info-sheet loop of parse (trp_excel.py lines 78
to 105): skip blank rows, lower-case the label, read the value cell,
match against the working vocabulary; on a match delete the key from the
working copy and store the coerced value, on StopIteration store a
truthy value under the space-to-underscore slug of the label. -/
def infoStep (C : Collab) (st : Meta × Vocab) (row : List Value) :
    Except PyErr (Meta × Vocab) :=
  match pyGet row 0 with
  | Except.error e => Except.error e
  | Except.ok first =>
    if first.truthy = false then Except.ok st
    else
      match first.lowerStr with
      | Option.none => Except.error PyErr.attributeError
      | Option.some cell_value =>
        match pyGet row 1 with
        | Except.error e => Except.error e
        | Except.ok val =>
          match search_key_in_def_dict cell_value st.2 with
          | Option.none =>
            if val.truthy then
              Except.ok (dictSet st.1 (pySlug cell_value) val, st.2)
            else Except.ok st
          | Option.some ke =>
            let tp := ke.2.type
            let md := st.2.filter (fun p => p.1 != ke.1)
            let meta :=
              if val = Value.none then dictSet st.1 ke.1 Value.none
              else if tp = "numeric" then dictSet st.1 ke.1 val
              else if tp = "date" then
                dictSet st.1 ke.1 ((C.handle_string_date val).getD Value.none)
              else if tp = "string" then
                dictSet st.1 ke.1 (C.handle_excel_string val)
              else st.1
            Except.ok (meta, md)

/-- Python del d[key] on the working vocabulary copy (line 96). -/
def vocabDel (d : Vocab) (k : String) : Vocab :=
  d.filter (fun p => p.1 != k)

/-- One iteration of the header loop of _parse_header (trp_excel.py
lines 132 to 149): classify the header cell in prefix mode falling back
to the verbatim header text, append it to the key sequence, and for the
loading and pressure columns extract the bracketed unit token and merge
the output of the matching unit parser; a header cell that is not a
string raises AttributeError at .lower(), and a loading or pressure
header without brackets raises AttributeError at .group() on None. -/
def headerStep (C : Collab) (st : List String × Meta) (h : Value) :
    Except PyErr (List String × Meta) :=
  match h with
  | Value.str s =>
    let header := (search_key_starts_def_dict (pyLower s) _DATA_DICT).getD s
    let headers := st.1 ++ [header]
    if header = "loading" then
      match betweenBrackets? s with
      | Option.none => Except.error PyErr.attributeError
      | Option.some u =>
        Except.ok (headers, dictSets st.2 (C.parse_loading_string (pyTrim u)))
    else if header = "pressure" then
      match betweenBrackets? s with
      | Option.none => Except.error PyErr.attributeError
      | Option.some u =>
        Except.ok (headers, dictSets st.2 (C.parse_pressure_string (pyTrim u)))
    else Except.ok (headers, st.2)
  | _ => Except.error PyErr.attributeError

/-- _parse_header (trp_excel.py lines 127 to 151): fold headerStep over
the header cells starting from the synthetic branch key and no units. -/
def _parse_header (C : Collab) (cells : List Value) :
    Except PyErr (List String × Meta) :=
  cells.foldlM (headerStep C) (["branch"], ([] : Meta))

/-- The loop of _parse_data (trp_excel.py lines 154 to 163) with the
branch counter threaded through: a row whose first cell equals the
sentinel string sets the counter to 1 and is consumed; any other row is
emitted with the branch value prepended; row[0] on an empty row raises
IndexError. -/
def parseDataGo (branch : Rat) : List (List Value) → Except PyErr (List (List Value))
  | [] => Except.ok []
  | row :: rest =>
    match row with
    | [] => Except.error PyErr.indexError
    | c :: _ =>
      if c = Value.str "---" then parseDataGo 1 rest
      else
        match parseDataGo branch rest with
        | Except.error e => Except.error e
        | Except.ok tail => Except.ok ((Value.num branch :: row) :: tail)

/-- _parse_data (trp_excel.py lines 154 to 163), branch counter
starting at 0. -/
def _parse_data (rows : List (List Value)) : Except PyErr (List (List Value)) :=
  parseDataGo 0 rows

/-- Python map(lambda *x: list(x), *data) (line 115): transpose the
assembled rows, stopping at the shortest row; with no rows at all the
call map(f) raises TypeError (map() needs at least one iterable). -/
def mapStar (rows : List (List Value)) : Except PyErr (List (List Value)) :=
  match rows with
  | [] => Except.error PyErr.typeError
  | r :: rs =>
    let n := rs.foldl (fun a row => Nat.min a row.length) r.length
    Except.ok ((List.range n).map (fun j => rows.map (fun row => row.getD j Value.none)))

/-- Python dict(zip(head, cols)) (line 115): pair keys with columns,
truncating to the shorter of the two, with later duplicate keys
overwriting earlier ones. -/
def buildData (head : List String) (cols : List (List Value)) : Data :=
  (head.zip cols).foldl (fun m p => dictSet m p.1 p.2) []

/-- Python sep.join(v) as used on meta['errors'] (line 177): joining a
string iterates its characters; joining any non-string scalar raises
TypeError. -/
def strJoin (sep : String) (v : Value) : Except PyErr String :=
  match v with
  | Value.str s => Except.ok (String.intercalate sep (s.toList.map (fun c => String.mk [c])))
  | _ => Except.error PyErr.typeError

/-- _check (trp_excel.py lines 166 to 177): when a loading column is
present, emit one informational message per falsy (empty) column; when
an errors entry is present, emit its contents joined by newlines as a
warning.  The emitted observations are returned as a list, modelling
the external logging sink. -/
def _check (meta : Meta) (data : Data) (path : String) :
    Except PyErr (List String) :=
  let obs1 : List String :=
    if dictMem data "loading" then
      (data.filter (fun p => p.2.isEmpty)).map
        (fun p => "No data collected for " ++ p.1 ++ " in file " ++ path ++ ".")
    else []
  match dictGet? meta "errors" with
  | Option.none => Except.ok obs1
  | Option.some v =>
    match strJoin "\n" v with
    | Except.error e => Except.error e
    | Except.ok j => Except.ok (obs1 ++ [j])

/-- Modelled from the spec: workbook[name] of the spreadsheet container
collaborator — returns the rows of the named sheet, and fails with an
error identifying the missing sheet (the SourceFormatError of the spec)
when no sheet of that name exists. -/
def wbGet (wb : Workbook) (name : String) : Except PyErr (List (List Value)) :=
  match wb.find? (fun p => p.1 == name) with
  | Option.some p => Except.ok p.2
  | Option.none => Except.error (PyErr.keyError name)

/-- The body of parse (trp_excel.py lines 51 to 124) run against the
working vocabulary copy g: Info sheet fold, Isotherm header
classification, unit merge, row assembly, transpose, zip into the data
mapping, anomaly check, and the fixed apparatus and temperature fields.
Returns the result together with the final state of the working
vocabulary copy the Info loop deleted keys from. -/
def parseCore (g : Vocab) (C : Collab) (wb : Workbook) (path : String) :
    Except PyErr ((Meta × Data) × Vocab) :=
  match wbGet wb "Info" with
  | Except.error e => Except.error e
  | Except.ok infoRows =>
    match infoRows.foldlM (infoStep C) (([] : Meta), g) with
    | Except.error e => Except.error e
    | Except.ok st =>
      match wbGet wb "Isotherm" with
      | Except.error e => Except.error e
      | Except.ok isoRows =>
        match isoRows with
        | [] => Except.error PyErr.stopIteration
        | headerRow :: dataRows =>
          match _parse_header C headerRow with
          | Except.error e => Except.error e
          | Except.ok hu =>
            let meta2 := dictSets st.1 hu.2
            match _parse_data dataRows with
            | Except.error e => Except.error e
            | Except.ok assembled =>
              match mapStar assembled with
              | Except.error e => Except.error e
              | Except.ok cols =>
                let data := buildData hu.1 cols
                match _check meta2 data path with
                | Except.error e => Except.error e
                | Except.ok _obs =>
                  let meta3 :=
                    dictSet (dictSet (dictSet meta2 "apparatus" (Value.str "3P"))
                      "temperature" (Value.num (Rat.divInt 773 10))) "temperature_unit" (Value.str "K")
                  Except.ok ((meta3, data), st.2)

/-- parse with the module-level vocabulary passed as explicit state g:
line 72 takes a private copy (_META_DICT.copy()), so every deletion of
a matched key acts on the copy threaded through parseCore, whose final
state is discarded, and the shared vocabulary after the call is the
unchanged g returned in the second component. -/
def parseT (g : Vocab) (C : Collab) (wb : Workbook) (path : String) :
    Except PyErr (Meta × Data) × Vocab :=
  match parseCore g C wb path with
  | Except.ok r => (Except.ok r.1, g)
  | Except.error e => (Except.error e, g)

/-- parse (trp_excel.py lines 51 to 124) on the module vocabulary. -/
def parse (C : Collab) (wb : Workbook) (path : String) :
    Except PyErr (Meta × Data) :=
  (parseT _META_DICT C wb path).1

/-- Unfolding of the monadic fold over Except on a cons cell. -/
theorem foldlM_except_cons {σ α : Type} (f : σ → α → Except PyErr σ) (s : σ)
    (a : α) (l : List α) :
    List.foldlM f s (a :: l) =
      match f s a with
      | Except.ok s2 => List.foldlM f s2 l
      | Except.error e => Except.error e := by
  have h0 : List.foldlM f s (a :: l) = f s a >>= fun s2 => List.foldlM f s2 l := rfl
  rw [h0]
  cases f s a <;> rfl

/-- Unfolding of the monadic fold over Except on an append. -/
theorem foldlM_except_append {σ α : Type} (f : σ → α → Except PyErr σ) (s : σ)
    (l1 l2 : List α) :
    List.foldlM f s (l1 ++ l2) =
      match List.foldlM f s l1 with
      | Except.ok s2 => List.foldlM f s2 l2
      | Except.error e => Except.error e := by
  induction l1 generalizing s with
  | nil => rfl
  | cons a l ih =>
    rw [List.cons_append, foldlM_except_cons, foldlM_except_cons]
    cases f s a <;> simp [ih]

/-- C9: the shared metadata vocabulary definition is left unchanged by
every parse invocation, completed or failed: line 72 hands the Info loop
a private copy, so the deletions of matched keys never reach the shared
dictionary, and a second parse started from the post-call vocabulary
state behaves exactly like the first. -/
theorem c9_vocabulary_unchanged (g : Vocab) (C : Collab) (wb : Workbook)
    (path : String) :
    (parseT g C wb path).2 = g ∧
    parseT (parseT g C wb path).2 C wb path = parseT g C wb path := by
  have h2 : (parseT g C wb path).2 = g := by
    unfold parseT
    cases parseCore g C wb path <;> rfl
  exact ⟨h2, by rw [h2]⟩

/-- C4 counterexample: the Info row with unmatched label Foo and the
numeric value 0 is silently skipped although its value is neither null
nor empty, because Python bases the fallback decision on truthiness and
the number 0 is falsy; the claim as stated requires the entry
("foo", 0) to be stored. -/
theorem c4_counterexample :
    infoStep defaultCollab (([] : Meta), _META_DICT)
      [Value.str "Foo", Value.num 0] = Except.ok (([] : Meta), _META_DICT) := by
  decide

/-- C4 amended: for a non-blank Info row whose lower-cased label matches
no vocabulary key, a truthy value (non-null, non-empty, non-zero,
non-false) is stored verbatim under the space-to-underscore slug of the
label, and a falsy value (null, empty string, the number 0 or False) is
silently skipped with no entry added and no error raised. -/
theorem c4_unmatched_fallback (C : Collab) (st : Meta × Vocab) (l : String)
    (v : Value) (rest : List Value) (hl : l ≠ "")
    (hs : search_key_in_def_dict (pyLower l) st.2 = Option.none) :
    infoStep C st (Value.str l :: v :: rest) =
      (if v.truthy then Except.ok (dictSet st.1 (pySlug (pyLower l)) v, st.2)
       else Except.ok st) := by
  simp [infoStep, pyGet, Value.truthy, Value.lowerStr, hl, hs]

/-- C4 witness: the amended theorem evaluated on a concrete truthy row
(stored under the slug key) after discharging its hypotheses. -/
theorem c4_witness :
    infoStep defaultCollab (([] : Meta), _META_DICT)
      [Value.str "Run ID", Value.str "7"] =
      Except.ok ([("run_id", Value.str "7")], _META_DICT) := by
  have h := c4_unmatched_fallback defaultCollab (([] : Meta), _META_DICT)
    "Run ID" (Value.str "7") [] (by decide) (by decide)
  simpa using h

/-- The value stored for a matched vocabulary key by lines 98 to 105: a
null cell stays null regardless of the declared type, a numeric value
passes through, a date is delegated to the date collaborator with null
recorded on rejection, and a string is normalised. -/
def coerce3P (C : Collab) (tp : String) (v : Value) : Value :=
  if v = Value.none then Value.none
  else if tp = "numeric" then v
  else if tp = "date" then (C.handle_string_date v).getD Value.none
  else C.handle_excel_string v

/-- C2: an Info row whose label matches the date vocabulary key but
whose value the date collaborator rejects records null for that field
and hands the loop a normal successor state, so the remaining rows (and
the sheets after them) are processed exactly as if the field had been
null: the failure is confined to the field and does not abort the
parse. -/
theorem c2_date_reject_field_local (C : Collab) (st : Meta × Vocab)
    (l : String) (v : Value) (rest : List Value) (k : String) (e : MetaEntry)
    (hl : l ≠ "")
    (hs : search_key_in_def_dict (pyLower l) st.2 = Option.some (k, e))
    (ht : e.type = "date") (hv : v ≠ Value.none)
    (hd : C.handle_string_date v = Option.none) :
    infoStep C st (Value.str l :: v :: rest) =
      Except.ok (dictSet st.1 k Value.none, vocabDel st.2 k) ∧
    ∀ (post : List (List Value)),
      List.foldlM (infoStep C) st ((Value.str l :: v :: rest) :: post) =
        List.foldlM (infoStep C) (dictSet st.1 k Value.none, vocabDel st.2 k) post := by
  have hstep : infoStep C st (Value.str l :: v :: rest) =
      Except.ok (dictSet st.1 k Value.none, vocabDel st.2 k) := by
    simp [infoStep, pyGet, Value.truthy, Value.lowerStr, vocabDel, hl, hs, ht, hv, hd]
  refine ⟨hstep, fun post => ?_⟩
  rw [foldlM_except_cons, hstep]

/-- C2 witness: the concrete row (Started Time, never) with the default
collaborator, whose date parser rejects the string never, yields the
null date entry and the consumed vocabulary. -/
theorem c2_witness :
    infoStep defaultCollab (([] : Meta), _META_DICT)
      [Value.str "Started Time", Value.str "never"] =
      Except.ok ([("date", Value.none)], vocabDel _META_DICT "date") := by
  have h := (c2_date_reject_field_local defaultCollab (([] : Meta), _META_DICT)
    "Started Time" (Value.str "never") [] "date"
    { text := ["started time"], type := "date" }
    (by decide) (by decide) rfl (by decide) (by decide)).1
  exact h.trans (by decide)

/-- C6 counterexample: two Info rows both labelled Adsorbate.  The first
stores the normalised value N2 under the canonical key adsorbate and
consumes the key; the second misses the vocabulary, takes the fallback
path, and its slug key adsorbate coincides with the canonical key, so
the raw value CO2 overwrites the canonical entry — the claim states a
later duplicate matching label cannot overwrite it. -/
theorem c6_counterexample :
    List.foldlM (infoStep defaultCollab) (([] : Meta), _META_DICT)
      [[Value.str "Adsorbate", Value.str "N2"],
       [Value.str "Adsorbate", Value.str "CO2"]] =
      Except.ok ([("adsorbate", Value.str "CO2")],
        vocabDel _META_DICT "adsorbate") := by
  decide

/-- C6 amended: the first matching row stores the coerced value (null
short-circuiting coercion) under the canonical key, adds no
fallback-slug entry, and consumes the key, so no later row can assign
the canonical key through vocabulary matching; a later duplicate label
is instead routed to the fallback path, whose slug key overwrites the
canonical entry exactly when the slug coincides with the canonical key
(as in the counterexample). -/
theorem c6_first_match_consumes (C : Collab) (st : Meta × Vocab) (l : String)
    (v : Value) (rest : List Value) (k : String) (e : MetaEntry)
    (hl : l ≠ "")
    (hs : search_key_in_def_dict (pyLower l) st.2 = Option.some (k, e))
    (ht : e.type = "numeric" ∨ e.type = "date" ∨ e.type = "string") :
    infoStep C st (Value.str l :: v :: rest) =
      Except.ok (dictSet st.1 k (coerce3P C e.type v), vocabDel st.2 k) ∧
    ∀ (text : String) (p : String × MetaEntry),
      search_key_in_def_dict text (vocabDel st.2 k) = Option.some p → p.1 ≠ k := by
  constructor
  · by_cases hv : v = Value.none
    · simp [infoStep, pyGet, Value.truthy, Value.lowerStr, vocabDel, coerce3P, hl, hs, hv]
    · rcases ht with ht | ht | ht <;>
        simp [infoStep, pyGet, Value.truthy, Value.lowerStr, vocabDel, coerce3P, hl, hs, hv, ht]
  · intro text p hp
    have hmem : p ∈ vocabDel st.2 k := List.mem_of_find?_eq_some hp
    have := (List.mem_filter.mp hmem).2
    simpa using this

/-- C6 witness: the amended theorem evaluated on the concrete first
matching row (Charge Name, Z5A). -/
theorem c6_witness :
    infoStep defaultCollab (([] : Meta), _META_DICT)
      [Value.str "Charge Name", Value.str "Z5A"] =
      Except.ok ([("material", Value.str "Z5A")], vocabDel _META_DICT "material") := by
  have h := (c6_first_match_consumes defaultCollab (([] : Meta), _META_DICT)
    "Charge Name" (Value.str "Z5A") [] "material"
    { text := ["charge name"], type := "string" }
    (by decide) (by decide) (Or.inr (Or.inr rfl))).1
  exact h.trans (by decide)

/-- C3: a header cell classified as loading or pressure but carrying no
bracketed substring aborts the whole header parse with the hard
AttributeError raised by .group() on a failed regex search (first
conjunct, stated after any prefix of headers that processed fine); when
a bracketed substring is present, the units merged for that header are
exactly the output of the corresponding external unit parser applied to
the trimmed bracketed substring (second and third conjuncts). -/
theorem c3_unit_extraction (C : Collab) :
    (∀ (st : List String × Meta) (pre post : List Value) (s key : String),
      List.foldlM (headerStep C) (["branch"], ([] : Meta)) pre = Except.ok st →
      search_key_starts_def_dict (pyLower s) _DATA_DICT = Option.some key →
      (key = "loading" ∨ key = "pressure") →
      betweenBrackets? s = Option.none →
      _parse_header C (pre ++ Value.str s :: post) =
        Except.error PyErr.attributeError) ∧
    (∀ (st : List String × Meta) (s u : String),
      search_key_starts_def_dict (pyLower s) _DATA_DICT = Option.some "loading" →
      betweenBrackets? s = Option.some u →
      headerStep C st (Value.str s) =
        Except.ok (st.1 ++ ["loading"],
          dictSets st.2 (C.parse_loading_string (pyTrim u)))) ∧
    (∀ (st : List String × Meta) (s u : String),
      search_key_starts_def_dict (pyLower s) _DATA_DICT = Option.some "pressure" →
      betweenBrackets? s = Option.some u →
      headerStep C st (Value.str s) =
        Except.ok (st.1 ++ ["pressure"],
          dictSets st.2 (C.parse_pressure_string (pyTrim u)))) := by
  refine ⟨?_, ?_, ?_⟩
  · intro st pre post s key hpre hkey hlp hb
    have hstep : headerStep C st (Value.str s) = Except.error PyErr.attributeError := by
      rcases hlp with h | h <;> subst h <;> simp [headerStep, hkey, hb]
    unfold _parse_header
    rw [foldlM_except_append, hpre]
    dsimp only
    rw [foldlM_except_cons, hstep]
  · intro st s u hkey hb
    simp [headerStep, hkey, hb]
  · intro st s u hkey hb
    simp [headerStep, hkey, hb]

/-- C3 witness: a loading header with an unclosed bracket aborts the
header parse, and the pressure header P (mmHg) merges exactly the
pressure parser output for mmHg. -/
theorem c3_witness :
    _parse_header defaultCollab [Value.str "V (mmol/g"] =
      Except.error PyErr.attributeError ∧
    headerStep defaultCollab (["branch"], ([] : Meta)) (Value.str "P (mmHg)") =
      Except.ok (["branch", "pressure"],
        [("pressure_mode", Value.str "absolute"),
         ("pressure_unit", Value.str "mmHg")]) := by
  constructor
  · exact (c3_unit_extraction defaultCollab).1 (["branch"], ([] : Meta)) [] []
      "V (mmol/g" "loading" rfl (by decide) (Or.inl rfl) (by decide)
  · have h := (c3_unit_extraction defaultCollab).2.2 (["branch"], ([] : Meta))
      "P (mmHg)" "mmHg" (by decide) (by decide)
    exact h.trans (by decide)

/-- Rows whose first cell differs from the sentinel are all assembled
with the current branch value prepended. -/
theorem parseDataGo_no_sentinel (b : Rat) (rows : List (List Value))
    (h : ∀ r ∈ rows, r ≠ [] ∧ r.headD Value.none ≠ Value.str "---") :
    parseDataGo b rows = Except.ok (rows.map (fun r => Value.num b :: r)) := by
  induction rows with
  | nil => rfl
  | cons r rest ih =>
    obtain ⟨hne, hhead⟩ := h r (by simp)
    cases r with
    | nil => exact absurd rfl hne
    | cons c cs =>
      have hc : c ≠ Value.str "---" := by simpa using hhead
      simp [parseDataGo, hc, ih (fun r hr => h r (by simp [hr]))]

/-- Once the branch counter is 1 it stays 1: every later sentinel row is
consumed and every other row is assembled with branch 1. -/
theorem parseDataGo_branch_one (rows : List (List Value))
    (h : ∀ r ∈ rows, r ≠ []) :
    parseDataGo 1 rows =
      Except.ok ((rows.filter
        (fun r => r.headD Value.none != Value.str "---")).map
        (fun r => Value.num 1 :: r)) := by
  induction rows with
  | nil => rfl
  | cons r rest ih =>
    cases r with
    | nil => exact absurd rfl (h [] (by simp))
    | cons c cs =>
      have ihr := ih (fun r hr => h r (by simp [hr]))
      by_cases hc : c = Value.str "---" <;>
        simp [parseDataGo, List.filter_cons, hc, ihr]

/-- Assembling a sentinel-free block of rows prepends the current branch
to each of them and continues with the remaining rows unchanged. -/
theorem parseDataGo_append_clean (b : Rat) (pre rest : List (List Value))
    (h : ∀ r ∈ pre, r ≠ [] ∧ r.headD Value.none ≠ Value.str "---") :
    parseDataGo b (pre ++ rest) =
      match parseDataGo b rest with
      | Except.ok t => Except.ok (pre.map (fun r => Value.num b :: r) ++ t)
      | Except.error e => Except.error e := by
  induction pre with
  | nil =>
    rw [List.nil_append]
    cases h2 : parseDataGo b rest <;> simp [h2]
  | cons r pre2 ih =>
    obtain ⟨hne, hhead⟩ := h r (by simp)
    cases r with
    | nil => exact absurd rfl hne
    | cons c cs =>
      have hc : c ≠ Value.str "---" := by simpa using hhead
      have ihr := ih (fun r hr => h r (by simp [hr]))
      rw [List.cons_append]
      simp only [parseDataGo, hc, if_neg hc, ihr]
      cases parseDataGo b rest <;> simp

/-- C5: the branch index of every assembled row before the first
sentinel row is 0 and of every assembled row after it 1 (so it never
reverts to 0), the sentinel rows themselves contribute no assembled
row, and a row whose first cell differs from the sentinel — however
closely it resembles it — is assembled as ordinary data; the second
conjunct covers inputs containing no sentinel row at all. -/
theorem c5_branch_segmentation :
    (∀ (pre : List (List Value)) (s0 : List Value) (post : List (List Value)),
      (∀ r ∈ pre, r ≠ [] ∧ r.headD Value.none ≠ Value.str "---") →
      s0.headD Value.none = Value.str "---" →
      (∀ r ∈ post, r ≠ []) →
      _parse_data (pre ++ s0 :: post) =
        Except.ok (pre.map (fun r => Value.num 0 :: r) ++
          (post.filter (fun r => r.headD Value.none != Value.str "---")).map
            (fun r => Value.num 1 :: r))) ∧
    (∀ rows : List (List Value),
      (∀ r ∈ rows, r ≠ [] ∧ r.headD Value.none ≠ Value.str "---") →
      _parse_data rows = Except.ok (rows.map (fun r => Value.num 0 :: r))) := by
  constructor
  · intro pre s0 post hpre hs0 hpost
    cases s0 with
    | nil => simp [List.headD] at hs0
    | cons c cs =>
      have hc : c = Value.str "---" := by simpa using hs0
      unfold _parse_data
      rw [parseDataGo_append_clean 0 pre (List.cons (c :: cs) post) hpre]
      have h1 : parseDataGo 0 ((c :: cs) :: post) = parseDataGo 1 post := by
        simp [parseDataGo, hc]
      rw [h1, parseDataGo_branch_one post hpost]
  · intro rows h
    exact parseDataGo_no_sentinel 0 rows h

/-- C5 witness: one adsorption row, the sentinel, a row resembling the
sentinel but not equal to it, and one desorption row. -/
theorem c5_witness :
    _parse_data [[Value.str "1", Value.num 1], [Value.str "---"],
        [Value.str "----"], [Value.str "2", Value.num 2]] =
      Except.ok [[Value.num 0, Value.str "1", Value.num 1],
        [Value.num 1, Value.str "----"],
        [Value.num 1, Value.str "2", Value.num 2]] := by
  have h := c5_branch_segmentation.1 [[Value.str "1", Value.num 1]]
    [Value.str "---"] [[Value.str "----"], [Value.str "2", Value.num 2]]
    (by decide) (by decide) (by decide)
  exact h.trans (by decide)

/-- C8 counterexample: a metadata mapping whose errors entry is the
number 5 — reachable from an Info row labelled Errors with a numeric
value, stored verbatim by the fallback path — makes the anomaly check
raise TypeError inside the newline join, so the check does not never
raise. -/
theorem c8_counterexample :
    _check [("errors", Value.num 5)] [] "f" = Except.error PyErr.typeError := by
  decide

/-- C8 amended: the anomaly check never raises provided the errors
entry, when present, is a string (the join of any non-string scalar
raises TypeError); it returns only the emitted observations; and the
empty-column scan runs only when a loading key is present in the data
mapping — without one the check behaves exactly as on an empty data
mapping. -/
theorem c8_check_observational (meta : Meta) (data : Data) (path : String) :
    ((∀ v, dictGet? meta "errors" = Option.some v → ∃ s, v = Value.str s) →
      ∃ obs, _check meta data path = Except.ok obs) ∧
    (data.all (fun p => p.1 != "loading") = true →
      _check meta data path = _check meta [] path) := by
  constructor
  · intro h
    unfold _check
    cases he : dictGet? meta "errors" with
    | none => exact ⟨_, rfl⟩
    | some v =>
      obtain ⟨s, hs⟩ := h v he
      subst hs
      exact ⟨_, rfl⟩
  · intro hall
    have hmem : dictMem data "loading" = false := by
      unfold dictMem
      rw [List.any_eq_false]
      intro p hp
      have := List.all_eq_true.mp hall p hp
      simpa using this
    unfold _check
    rw [hmem]
    rfl

/-- C8 witness: the amended theorem evaluated on a metadata mapping
whose errors entry is a string and a loading-free data mapping. -/
theorem c8_witness :
    (∃ obs, _check [("errors", Value.str "ab")] [] "f" = Except.ok obs) ∧
    _check [] [("pressure", [])] "f" = _check [] [] "f" := by
  constructor
  · refine (c8_check_observational [("errors", Value.str "ab")] [] "f").1 ?_
    intro v hv
    refine ⟨"ab", ?_⟩
    have h0 : dictGet? [("errors", Value.str "ab")] "errors" =
        Option.some (Value.str "ab") := by decide
    rw [h0] at hv
    exact (Option.some.inj hv).symm
  · exact (c8_check_observational [] [("pressure", [])] "f").2 (by decide)

/-- C7 counterexample: a workbook whose Isotherm sheet is absent but
whose Info sheet holds a one-cell row fails with IndexError from
row[1] before the Isotherm lookup is ever reached, not with the
sheet-identifying error the claim requires for every document missing
a named sheet. -/
theorem c7_counterexample :
    (parseT _META_DICT defaultCollab [("Info", [[Value.str "x"]])] "f").1 =
      Except.error PyErr.indexError := by
  decide

/-- C7 amended: a document without an Info sheet fails immediately with
the error naming Info; a document with an Info sheet whose processing
completes and without an Isotherm sheet fails with the error naming
Isotherm; in both cases no metadata/data pair is returned.  (When Info
processing itself raises — a non-string label or a one-cell row — that
error surfaces instead, as the counterexample shows.) -/
theorem c7_missing_sheet (g : Vocab) (C : Collab) (wb : Workbook)
    (path : String) :
    (wb.find? (fun p => p.1 == "Info") = Option.none →
      parseT g C wb path = (Except.error (PyErr.keyError "Info"), g)) ∧
    (∀ (infoRows : List (List Value)) (st : Meta × Vocab),
      wbGet wb "Info" = Except.ok infoRows →
      List.foldlM (infoStep C) (([] : Meta), g) infoRows = Except.ok st →
      wb.find? (fun p => p.1 == "Isotherm") = Option.none →
      parseT g C wb path = (Except.error (PyErr.keyError "Isotherm"), g)) := by
  constructor
  · intro h
    unfold parseT parseCore wbGet
    rw [h]
  · intro infoRows st h1 h2 h3
    unfold parseT parseCore
    rw [h1]
    dsimp only
    rw [h2]
    dsimp only
    unfold wbGet
    rw [h3]

/-- C7 witness: the amended theorem evaluated on a workbook with no
sheets (missing Info) and on a workbook holding only an empty Info
sheet (missing Isotherm). -/
theorem c7_witness :
    parseT _META_DICT defaultCollab [] "f" =
      (Except.error (PyErr.keyError "Info"), _META_DICT) ∧
    parseT _META_DICT defaultCollab [("Info", [])] "f" =
      (Except.error (PyErr.keyError "Isotherm"), _META_DICT) := by
  constructor
  · exact (c7_missing_sheet _META_DICT defaultCollab [] "f").1 rfl
  · exact (c7_missing_sheet _META_DICT defaultCollab [("Info", [])] "f").2
      [] (([] : Meta), _META_DICT) rfl rfl rfl

/-- A block consisting solely of sentinel rows assembles to nothing,
whatever the branch counter. -/
theorem parseDataGo_all_sentinel : ∀ (rows : List (List Value)) (b : Rat),
    (∀ r ∈ rows, r.headD Value.none = Value.str "---") →
    parseDataGo b rows = Except.ok [] := by
  intro rows
  induction rows with
  | nil => intro b h; rfl
  | cons r rest ih =>
    intro b h
    have hr := h r (by simp)
    cases r with
    | nil => simp at hr
    | cons c cs =>
      have hc : c = Value.str "---" := by simpa using hr
      simp [parseDataGo, hc, ih 1 (fun r hrr => h r (by simp [hrr]))]

/-- The assembled output has exactly one row per non-sentinel input
row. -/
theorem parseDataGo_length : ∀ (rows : List (List Value)) (b : Rat)
    (out : List (List Value)), parseDataGo b rows = Except.ok out →
    out.length =
      (rows.filter (fun r => r.headD Value.none != Value.str "---")).length := by
  intro rows
  induction rows with
  | nil =>
    intro b out h
    simp only [parseDataGo] at h
    cases h
    rfl
  | cons r rest ih =>
    intro b out h
    cases r with
    | nil => simp [parseDataGo] at h
    | cons c cs =>
      by_cases hc : c = Value.str "---"
      · rw [show parseDataGo b ((c :: cs) :: rest) = parseDataGo 1 rest by
          simp [parseDataGo, hc]] at h
        simpa [List.filter_cons, hc] using ih 1 out h
      · simp only [parseDataGo, if_neg hc] at h
        cases h2 : parseDataGo b rest with
        | error e => rw [h2] at h; cases h
        | ok tail =>
          rw [h2] at h
          cases h
          simpa [List.filter_cons, hc] using ih b tail h2

/-- Every column produced by the transpose has one entry per assembled
row. -/
theorem mapStar_length (rows cols : List (List Value))
    (h : mapStar rows = Except.ok cols) (c : List Value) (hc : c ∈ cols) :
    c.length = rows.length := by
  unfold mapStar at h
  cases rows with
  | nil => cases h
  | cons r rs =>
    have hcols : cols =
        (List.range (rs.foldl (fun a row => Nat.min a row.length) r.length)).map
          (fun j => (r :: rs).map (fun row => row.getD j Value.none)) := by
      cases h; rfl
    subst hcols
    obtain ⟨j, hj, rfl⟩ := List.mem_map.mp hc
    simp

/-- A dict write only adds the written binding to the possible
entries. -/
theorem dictSet_mem {β : Type} (m : List (String × β)) (k : String) (v : β)
    (q : String × β) (h : q ∈ dictSet m k v) : q ∈ m ∨ q = (k, v) := by
  unfold dictSet at h
  by_cases hc : m.any (fun p => p.1 == k)
  · rw [if_pos hc] at h
    obtain ⟨p, hp, hq⟩ := List.mem_map.mp h
    by_cases hpk : (p.1 == k) = true
    · right
      rw [if_pos hpk] at hq
      exact hq.symm
    · left
      rw [if_neg hpk] at hq
      rw [← hq]
      exact hp
  · rw [if_neg hc] at h
    rcases List.mem_append.mp h with h | h
    · exact Or.inl h
    · right; simpa using h

/-- Entries of a fold of dict writes come from the initial mapping or
from the written pairs. -/
theorem foldl_dictSet_mem {β : Type} :
    ∀ (ps : List (String × β)) (init : List (String × β)) (q : String × β),
    q ∈ ps.foldl (fun m p => dictSet m p.1 p.2) init → q ∈ init ∨ q ∈ ps := by
  intro ps
  induction ps with
  | nil => intro init q h; exact Or.inl h
  | cons a ps ih =>
    intro init q h
    rcases ih (dictSet init a.1 a.2) q h with h2 | h2
    · rcases dictSet_mem init a.1 a.2 q h2 with h3 | h3
      · exact Or.inl h3
      · right
        simp [h3]
    · right
      exact List.mem_cons_of_mem a h2

/-- Every value sequence of the zipped data mapping is one of the
transposed columns. -/
theorem buildData_mem (head : List String) (cols : List (List Value))
    (p : String × List Value) (h : p ∈ buildData head cols) : p.2 ∈ cols := by
  unfold buildData at h
  rcases foldl_dictSet_mem (head.zip cols) [] p h with h2 | h2
  · simp at h2
  · obtain ⟨k, c⟩ := p
    exact (List.of_mem_zip h2).2

/-- Inversion of a successful run of the parse body: the Isotherm sheet
was found with a header row, the header parse, row assembly and
transpose all succeeded, and the returned data mapping is the zip of
the classified keys with the transposed columns. -/
theorem parseCore_ok_shape (g : Vocab) (C : Collab) (wb : Workbook)
    (path : String) (m : Meta) (d : Data) (v : Vocab)
    (h : parseCore g C wb path = Except.ok ((m, d), v)) :
    ∃ (hrow : List Value) (drows : List (List Value)) (hu : List String × Meta)
      (assembled cols : List (List Value)),
      wbGet wb "Isotherm" = Except.ok (hrow :: drows) ∧
      _parse_header C hrow = Except.ok hu ∧
      _parse_data drows = Except.ok assembled ∧
      mapStar assembled = Except.ok cols ∧
      d = buildData hu.1 cols := by
  unfold parseCore at h
  cases h1 : wbGet wb "Info" with
  | error e => rw [h1] at h; cases h
  | ok infoRows =>
    rw [h1] at h
    dsimp only at h
    cases h2 : List.foldlM (infoStep C) (([] : Meta), g) infoRows with
    | error e => rw [h2] at h; cases h
    | ok st =>
      rw [h2] at h
      dsimp only at h
      cases h3 : wbGet wb "Isotherm" with
      | error e => rw [h3] at h; cases h
      | ok isoRows =>
        rw [h3] at h
        dsimp only at h
        cases isoRows with
        | nil => cases h
        | cons hrow drows =>
          dsimp only at h
          cases h4 : _parse_header C hrow with
          | error e => rw [h4] at h; cases h
          | ok hu =>
            rw [h4] at h
            dsimp only at h
            cases h5 : _parse_data drows with
            | error e => rw [h5] at h; cases h
            | ok assembled =>
              rw [h5] at h
              dsimp only at h
              cases h6 : mapStar assembled with
              | error e => rw [h6] at h; cases h
              | ok cols =>
                rw [h6] at h
                dsimp only at h
                cases h7 : _check (dictSets st.1 hu.2) (buildData hu.1 cols) path with
                | error e => rw [h7] at h; cases h
                | ok obs =>
                  rw [h7] at h
                  dsimp only at h
                  refine ⟨hrow, drows, hu, assembled, cols, rfl, h4, h5, h6, ?_⟩
                  cases h
                  rfl

/-- C10: a document whose Isotherm sheet holds a header row but whose
remaining rows are all sentinel rows (in particular, none at all)
reaches the transpose with an empty assembled list, where map() with no
iterables raises TypeError — the parse fails instead of returning a
mapping of empty per-column sequences. -/
theorem c10_no_data_rows (g : Vocab) (C : Collab) (wb : Workbook)
    (path : String) (infoRows : List (List Value)) (st : Meta × Vocab)
    (hrow : List Value) (drows : List (List Value)) (hu : List String × Meta)
    (h1 : wbGet wb "Info" = Except.ok infoRows)
    (h2 : List.foldlM (infoStep C) (([] : Meta), g) infoRows = Except.ok st)
    (h3 : wbGet wb "Isotherm" = Except.ok (hrow :: drows))
    (h4 : _parse_header C hrow = Except.ok hu)
    (h5 : drows.filter (fun r => r.headD Value.none != Value.str "---") = []) :
    parseT g C wb path = (Except.error PyErr.typeError, g) := by
  have hall : ∀ r ∈ drows, r.headD Value.none = Value.str "---" := by
    intro r hr
    have := List.filter_eq_nil_iff.mp h5 r hr
    simpa using this
  have hasm : _parse_data drows = Except.ok [] :=
    parseDataGo_all_sentinel drows 0 hall
  unfold parseT parseCore
  rw [h1]
  dsimp only
  rw [h2]
  dsimp only
  rw [h3]
  dsimp only
  rw [h4]
  dsimp only
  rw [hasm]
  rfl

/-- C10 witness: an Isotherm sheet holding a header row and only the
sentinel row fails with TypeError. -/
theorem c10_witness :
    parseT _META_DICT defaultCollab
      [("Info", []), ("Isotherm", [[Value.str "A"], [Value.str "---"]])] "f" =
      (Except.error PyErr.typeError, _META_DICT) := by
  exact c10_no_data_rows _META_DICT defaultCollab
    [("Info", []), ("Isotherm", [[Value.str "A"], [Value.str "---"]])] "f"
    [] (([] : Meta), _META_DICT) [Value.str "A"] [[Value.str "---"]]
    (["branch", "A"], ([] : Meta)) rfl rfl rfl (by decide) (by decide)

/-- C1 counterexample: an Isotherm sheet whose data rows have lengths 2
and 1.  The claim requires the parse to fail on mismatched row lengths;
instead the transpose stops at the shortest row, the column headed B is
silently dropped, and the parse succeeds. -/
theorem c1_counterexample :
    parseT _META_DICT defaultCollab
      [("Info", ([] : List (List Value))),
       ("Isotherm", [[Value.str "A", Value.str "B"],
         [Value.num 1, Value.num 2], [Value.num 3]])] "f" =
      (Except.ok ([("apparatus", Value.str "3P"),
          ("temperature", Value.num (Rat.divInt 773 10)),
          ("temperature_unit", Value.str "K")],
        [("branch", [Value.num 0, Value.num 0]),
         ("A", [Value.num 1, Value.num 3])]), _META_DICT) := by
  decide

/-- C1 amended: the parse builds the data mapping by grouping values by
column position and zipping with the column-key sequence, but performs
no equal-length verification: mismatched row lengths are silently
truncated to the shortest assembled row (and to the key sequence) and
the parse succeeds; every sequence in the returned data mapping has
length equal to the number of Isotherm data rows excluding the sentinel
rows. -/
theorem c1_column_lengths (g : Vocab) (C : Collab) (wb : Workbook)
    (path : String) (m : Meta) (d : Data) (hrow : List Value)
    (drows : List (List Value))
    (hiso : wbGet wb "Isotherm" = Except.ok (hrow :: drows))
    (hok : (parseT g C wb path).1 = Except.ok (m, d)) :
    ∀ p ∈ d, p.2.length =
      (drows.filter (fun r => r.headD Value.none != Value.str "---")).length := by
  have hcore : ∃ v, parseCore g C wb path = Except.ok ((m, d), v) := by
    unfold parseT at hok
    cases hc : parseCore g C wb path with
    | error e => rw [hc] at hok; cases hok
    | ok r =>
      rw [hc] at hok
      dsimp only at hok
      have hr1 : r.1 = (m, d) := Except.ok.inj hok
      exact ⟨r.2, by rw [← hr1]⟩
  obtain ⟨v, hcore⟩ := hcore
  obtain ⟨hrow2, drows2, hu, assembled, cols, hiso2, hhead, hasm, hcols, hd⟩ :=
    parseCore_ok_shape g C wb path m d v hcore
  rw [hiso] at hiso2
  have hdr : drows2 = drows :=
    (List.cons.inj (Except.ok.inj hiso2)).2.symm
  subst hdr
  intro p hp
  rw [hd] at hp
  have hmem := buildData_mem hu.1 cols p hp
  have hlen := mapStar_length assembled cols hcols p.2 hmem
  rw [hlen]
  exact parseDataGo_length drows2 0 assembled hasm

/-- C1 witness: the amended theorem evaluated on the truncating
document of the counterexample, at the column keyed A. -/
theorem c1_witness :
    (("A", [Value.num 1, Value.num 3]) : String × List Value).2.length =
      ([[Value.num 1, Value.num 2], [Value.num 3]].filter
        (fun r => r.headD Value.none != Value.str "---")).length := by
  exact c1_column_lengths _META_DICT defaultCollab
    [("Info", []), ("Isotherm", [[Value.str "A", Value.str "B"],
      [Value.num 1, Value.num 2], [Value.num 3]])] "f"
    [("apparatus", Value.str "3P"),
     ("temperature", Value.num (Rat.divInt 773 10)),
     ("temperature_unit", Value.str "K")]
    [("branch", [Value.num 0, Value.num 0]), ("A", [Value.num 1, Value.num 3])]
    [Value.str "A", Value.str "B"] [[Value.num 1, Value.num 2], [Value.num 3]]
    (by decide) (by decide) ("A", [Value.num 1, Value.num 3]) (by decide)

end TrpExcel
